import Mathlib

/-!
Device configuration schema of esp32-wifi-mqtt.

A shallow embedding of the two configuration headers

* `esp32-wifi-mqtt/wifi_config_template.h`
* `esp32-wifi-mqtt/mqtt_config_template.h`

Each header is a sequence of namespace-scope C++ variable definitions with an
initialiser.  A definition is embedded as its declared type, its name and its
initialiser; the initialisers are also available as Lean constants carrying the
names used in the headers.
-/

namespace Esp32WifiMqtt

/-! ## C++ types and initialisers occurring in the headers -/

/-- C++ types as they are spelled in the headers: the three base types that occur
(`int`, `bool`, `char`), a `const` qualification of a type, and a pointer to a type.
`const char *` is `ptr (const char)`: a pointer, itself not qualified, to
`const`-qualified characters.  `const int` is `const int`. -/
inductive CType where
  | int : CType
  | bool : CType
  | char : CType
  | const : CType → CType
  | ptr : CType → CType
  deriving DecidableEq, Repr

/-- Values an object of the headers can hold: the text a `const char *` points to
(given by a string literal), an `int`, or a `bool`. -/
inductive Value where
  | str : String → Value
  | int : Int → Value
  | bool : Bool → Value
  deriving DecidableEq, Repr

/-- One variable definition `type NAME = init;` of a header. -/
structure Decl where
  type : CType
  name : String
  init : Value
  deriving DecidableEq, Repr

/-- The type spelled `const char *`. -/
def constCharPtr : CType := CType.ptr (CType.const CType.char)

/-- The type spelled `const int`. -/
def constInt : CType := CType.const CType.int

/-- The type spelled `const bool`. -/
def constBool : CType := CType.const CType.bool

/-! ## wifi_config_template.h -/

/-- `const char *WIFI_SSID = "YourWiFiNetwork";` -/
def WIFI_SSID : String := "YourWiFiNetwork"

/-- `const char *WIFI_PASSWORD = "YourWiFiPassword";` -/
def WIFI_PASSWORD : String := "YourWiFiPassword"

/-- The definitions of `wifi_config_template.h`, in source order. -/
def wifi_config_template : List Decl :=
  [ ⟨constCharPtr, "WIFI_SSID", Value.str WIFI_SSID⟩,
    ⟨constCharPtr, "WIFI_PASSWORD", Value.str WIFI_PASSWORD⟩ ]

/-! ## mqtt_config_template.h -/

/-- `const char *MQTT_BROKER = "test.mosquitto.org";` -/
def MQTT_BROKER : String := "test.mosquitto.org"

/-- `const int MQTT_PORT = 1883;` -/
def MQTT_PORT : Int := 1883

/-- `const char *MQTT_CLIENT_ID = "ESP32_Client";` -/
def MQTT_CLIENT_ID : String := "ESP32_Client"

/-- `const char *MQTT_USERNAME = "";` -/
def MQTT_USERNAME : String := ""

/-- `const char *MQTT_PASSWORD = "";` -/
def MQTT_PASSWORD : String := ""

/-- `const char *MQTT_TOPIC_PREFIX = "esp32/device";` -/
def MQTT_TOPIC_PREFIX : String := "esp32/device"

/-- `const int MQTT_QOS = 1;` -/
def MQTT_QOS : Int := 1

/-- `const bool MQTT_RETAIN = false;` -/
def MQTT_RETAIN : Bool := false

/-- `const int MQTT_RECONNECT_DELAY = 5000;` -/
def MQTT_RECONNECT_DELAY : Int := 5000

/-- `const int MQTT_KEEPALIVE_INTERVAL = 60;` -/
def MQTT_KEEPALIVE_INTERVAL : Int := 60

/-- The definitions of `mqtt_config_template.h`, in source order. -/
def mqtt_config_template : List Decl :=
  [ ⟨constCharPtr, "MQTT_BROKER", Value.str MQTT_BROKER⟩,
    ⟨constInt, "MQTT_PORT", Value.int MQTT_PORT⟩,
    ⟨constCharPtr, "MQTT_CLIENT_ID", Value.str MQTT_CLIENT_ID⟩,
    ⟨constCharPtr, "MQTT_USERNAME", Value.str MQTT_USERNAME⟩,
    ⟨constCharPtr, "MQTT_PASSWORD", Value.str MQTT_PASSWORD⟩,
    ⟨constCharPtr, "MQTT_TOPIC_PREFIX", Value.str MQTT_TOPIC_PREFIX⟩,
    ⟨constInt, "MQTT_QOS", Value.int MQTT_QOS⟩,
    ⟨constBool, "MQTT_RETAIN", Value.bool MQTT_RETAIN⟩,
    ⟨constInt, "MQTT_RECONNECT_DELAY", Value.int MQTT_RECONNECT_DELAY⟩,
    ⟨constInt, "MQTT_KEEPALIVE_INTERVAL", Value.int MQTT_KEEPALIVE_INTERVAL⟩ ]

/-- Number of bytes of a C string before its terminating NUL, as `strlen` reports it:
the size of the UTF-8 encoding of the literal. -/
def strlen (s : String) : Nat := s.utf8ByteSize

/-- Initialiser of the definition called `name` in a header, if there is one. -/
def lookupInit (hdr : List Decl) (name : String) : Option Value :=
  (hdr.find? (fun d => d.name == name)).map Decl.init

/-- Objects visible to a program that includes both headers. -/
def globals : List Decl := wifi_config_template ++ mqtt_config_template

/-! ## Documented conventions -/

/-- The header's comment on the credentials reads "MQTT Authentication (leave empty for
anonymous access)": a configuration asks for anonymous access when both the user name
and the password are the empty string. -/
def anonymousAccess (username password : String) : Bool :=
  username.isEmpty && password.isEmpty

/-- The header's comment on the topic base reads "Will be used as: esp32/device/data,
esp32/device/commands, etc.": a sub-topic is the base followed by a suffix such as
"/data". -/
def subTopic (base suffix : String) : String := base ++ suffix

/-- The quality-of-service levels listed in the header's comment "(0, 1, or 2)". -/
def validQos : List Int := [0, 1, 2]

/-! ## Schema: semantic types of the declared fields -/

/-- Semantic type of a configuration field. -/
inductive SemType where
  | text : SemType
  | integer : SemType
  | boolean : SemType
  deriving DecidableEq, Repr

/-- Semantic type carried by a C++ type of the headers, if any: a pointer to constant
characters is text, an `int` is an integer, a `bool` is a boolean, whether or not the
object itself is `const`-qualified. -/
def semType : CType → Option SemType
  | CType.ptr (CType.const CType.char) => some SemType.text
  | CType.const (CType.ptr (CType.const CType.char)) => some SemType.text
  | CType.int => some SemType.integer
  | CType.const CType.int => some SemType.integer
  | CType.bool => some SemType.boolean
  | CType.const CType.bool => some SemType.boolean
  | _ => none

/-- Field of the data model that an identifier of the headers stands for. -/
def fieldOf : String → Option String
  | "WIFI_SSID" => some "ssid"
  | "WIFI_PASSWORD" => some "password"
  | "MQTT_BROKER" => some "broker"
  | "MQTT_PORT" => some "port"
  | "MQTT_CLIENT_ID" => some "clientId"
  | "MQTT_USERNAME" => some "username"
  | "MQTT_PASSWORD" => some "password"
  | "MQTT_TOPIC_PREFIX" => some "topicPrefix"
  | "MQTT_QOS" => some "qos"
  | "MQTT_RETAIN" => some "retain"
  | "MQTT_RECONNECT_DELAY" => some "reconnectDelayMs"
  | "MQTT_KEEPALIVE_INTERVAL" => some "keepAliveSeconds"
  | _ => none

/-- Schema of a header: for every definition, the field it stands for and the semantic
type of its declared type. -/
def schemaOf (hdr : List Decl) : List (Option String × Option SemType) :=
  hdr.map (fun d => (fieldOf d.name, semType d.type))

/-- Number of definitions of a header whose declared type has the given semantic type. -/
def countOf (hdr : List Decl) (t : SemType) : Nat :=
  (hdr.filter (fun d => semType d.type == some t)).length

/-- The record `WiFiConfig` as the specification's data model lists it. -/
def specWiFiConfig : List (String × SemType) :=
  [ ("ssid", SemType.text),
    ("password", SemType.text) ]

/-- The record `MqttConfig` as the specification's data model lists it. -/
def specMqttConfig : List (String × SemType) :=
  [ ("broker", SemType.text),
    ("port", SemType.integer),
    ("clientId", SemType.text),
    ("username", SemType.text),
    ("password", SemType.text),
    ("topicPrefix", SemType.text),
    ("qos", SemType.integer),
    ("retain", SemType.boolean),
    ("reconnectDelayMs", SemType.integer),
    ("keepAliveSeconds", SemType.integer) ]

/-- A record of the data model in the shape `schemaOf` produces. -/
def expected (r : List (String × SemType)) : List (Option String × Option SemType) :=
  r.map (fun p => (some p.1, some p.2))

/-! ## Programs that include the headers

The only way a well-formed C++ program changes the value of a namespace-scope object
without a cast is an assignment to it, and an assignment is well-formed only when the
object is a modifiable lvalue, that is, when its type is not `const`-qualified at top
level. -/

/-- Whether an object of this type is itself `const`-qualified.  For `const char *` the
qualifier belongs to the characters pointed to, not to the pointer object. -/
def CType.isConst : CType → Bool
  | CType.const _ => true
  | _ => false

/-- Whether a value can be assigned to an object of the given type: a string literal
to a pointer to constant characters, an `int` to an `int`, a `bool` to a `bool`. -/
def Value.fits : Value → CType → Bool
  | Value.str _, CType.ptr (CType.const CType.char) => true
  | Value.int _, CType.int => true
  | Value.bool _, CType.bool => true
  | _, _ => false

/-- The statement `name = value;`. -/
structure Assign where
  name : String
  value : Value
  deriving DecidableEq, Repr

/-- Values of the objects at some point of execution. -/
abbrev Store := List (String × Value)

/-- The store right after initialisation of the objects of a header. -/
def initStore (hdr : List Decl) : Store :=
  hdr.map (fun d => (d.name, d.init))

/-- Value currently read from the object called `name`. -/
def read (st : Store) (name : String) : Option Value :=
  (st.find? (fun p => p.1 == name)).map Prod.snd

/-- The store after `name` has been given the value `v`. -/
def write (st : Store) (name : String) (v : Value) : Store :=
  st.map (fun p => if p.1 == name then (p.1, v) else p)

/-- Declaration of the object called `name` in a header. -/
def declOf (hdr : List Decl) (name : String) : Option Decl :=
  hdr.find? (fun d => d.name == name)

/-- One assignment: `none` when the compiler rejects it (the name is not declared, the
object is `const`-qualified, or the value does not fit its type), otherwise the store
after it. -/
def step (hdr : List Decl) (st : Store) (a : Assign) : Option Store :=
  match declOf hdr a.name with
  | none => none
  | some d =>
    if d.type.isConst then none
    else if a.value.fits d.type then some (write st a.name a.value)
    else none

/-- A sequence of assignments: `none` when one of them is rejected. -/
def run (hdr : List Decl) (st : Store) : List Assign → Option Store
  | [] => some st
  | a :: rest =>
    match step hdr st a with
    | none => none
    | some st1 => run hdr st1 rest

/-- A value of the same kind as `v` and different from it. -/
def otherValue : Value → Value
  | Value.str s => Value.str (s ++ "!")
  | Value.int n => Value.int (n + 1)
  | Value.bool b => Value.bool (!b)

/-- The one-statement program `NAME = other;` for a definition of a header, where
`other` is a value of the kind of its initialiser and different from it. -/
def reassign (d : Decl) : List Assign := [⟨d.name, otherValue d.init⟩]

/-- Names of the definitions of a header. -/
def names (hdr : List Decl) : List String := hdr.map Decl.name

/-- Whether the one-statement program `reassign d` is accepted and, after it, the value
read from the object is no longer the initialiser the header gave it. -/
def reassignable (hdr : List Decl) (d : Decl) : Bool :=
  match run hdr (initStore hdr) (reassign d) with
  | none => false
  | some st => read st d.name != some d.init

/-- Name and initialiser of every definition of a header. -/
def defaults (hdr : List Decl) : List (String × Value) :=
  hdr.map (fun d => (d.name, d.init))

/-- The definitions of a header whose declared type is not text. -/
def nonText (hdr : List Decl) : List Decl :=
  hdr.filter (fun d => semType d.type != some SemType.text)

/-! ## Supporting lemmas on programs -/

/-- Reading from a store, one entry at a time. -/
theorem read_cons (p : String × Value) (rest : Store) (n : String) :
    read (p :: rest) n = if p.1 = n then some p.2 else read rest n := by
  by_cases hp : p.1 = n
  · simp [read, List.find?, hp]
  · have hb : (p.1 == n) = false := by simpa using hp
    simp [read, List.find?, hb, hp]

/-- Writing to a store, one entry at a time. -/
theorem write_cons (p : String × Value) (rest : Store) (name : String) (v : Value) :
    write (p :: rest) name v
      = (if p.1 = name then (p.1, v) else p) :: write rest name v := by
  simp [write]

/-- Writing one object leaves every other object as it was. -/
theorem read_write_of_ne (st : Store) (name n : String) (v : Value) (h : name ≠ n) :
    read (write st name v) n = read st n := by
  induction st with
  | nil => rfl
  | cons p rest ih =>
    rw [write_cons, read_cons, read_cons, ih]
    by_cases hq : p.1 = name
    · have hp : ¬ p.1 = n := fun e => h (hq.symm.trans e)
      simp [hq, hp, h]
    · simp [hq]

/-- An assignment to an object whose type is `const`-qualified is rejected. -/
theorem step_const_rejected (hdr : List Decl) (st : Store) (a : Assign) (d : Decl)
    (hd : declOf hdr a.name = some d) (hc : d.type.isConst = true) :
    step hdr st a = none := by
  simp [step, hd, hc]

/-- An accepted assignment either targets another object or leaves the read of `n`
unchanged, when `n` names a `const`-qualified object. -/
theorem step_preserves_const (hdr : List Decl) (n : String) (d : Decl)
    (hd : declOf hdr n = some d) (hc : d.type.isConst = true)
    (st st1 : Store) (a : Assign) (hs : step hdr st a = some st1) :
    read st1 n = read st n := by
  by_cases e : a.name = n
  · have hrej := step_const_rejected hdr st a d (by rw [e]; exact hd) hc
    rw [hrej] at hs
    cases hs
  · unfold step at hs
    cases hdecl : declOf hdr a.name with
    | none => simp [hdecl] at hs
    | some d1 =>
      simp only [hdecl] at hs
      split at hs
      · cases hs
      · split at hs
        · cases hs
          exact read_write_of_ne st a.name n a.value e
        · cases hs

/-- No accepted program changes what is read from a `const`-qualified object. -/
theorem const_object_immutable (hdr : List Decl) (n : String) (d : Decl)
    (hd : declOf hdr n = some d) (hc : d.type.isConst = true) :
    ∀ (prog : List Assign) (st0 st : Store),
      run hdr st0 prog = some st → read st n = read st0 n := by
  intro prog
  induction prog with
  | nil =>
    intro st0 st h
    simp [run] at h
    rw [h]
  | cons a rest ih =>
    intro st0 st h
    unfold run at h
    cases hs : step hdr st0 a with
    | none => simp [hs] at h
    | some st1 =>
      simp only [hs] at h
      rw [ih st1 st h]
      exact step_preserves_const hdr n d hd hc st0 st1 a hs

/-- The five scalar settings keep their compiled-in value under every accepted program
that includes both headers. -/
theorem scalar_fields_immutable (prog : List Assign) (st : Store)
    (h : run globals (initStore globals) prog = some st) :
    read st "MQTT_PORT" = some (Value.int MQTT_PORT) ∧
    read st "MQTT_QOS" = some (Value.int MQTT_QOS) ∧
    read st "MQTT_RETAIN" = some (Value.bool MQTT_RETAIN) ∧
    read st "MQTT_RECONNECT_DELAY" = some (Value.int MQTT_RECONNECT_DELAY) ∧
    read st "MQTT_KEEPALIVE_INTERVAL" = some (Value.int MQTT_KEEPALIVE_INTERVAL) := by
  refine ⟨?_, ?_, ?_, ?_, ?_⟩
  · rw [const_object_immutable globals "MQTT_PORT" ⟨constInt, "MQTT_PORT", Value.int MQTT_PORT⟩
      (by decide) (by decide) prog _ st h]
    decide
  · rw [const_object_immutable globals "MQTT_QOS" ⟨constInt, "MQTT_QOS", Value.int MQTT_QOS⟩
      (by decide) (by decide) prog _ st h]
    decide
  · rw [const_object_immutable globals "MQTT_RETAIN" ⟨constBool, "MQTT_RETAIN", Value.bool MQTT_RETAIN⟩
      (by decide) (by decide) prog _ st h]
    decide
  · rw [const_object_immutable globals "MQTT_RECONNECT_DELAY" ⟨constInt, "MQTT_RECONNECT_DELAY", Value.int MQTT_RECONNECT_DELAY⟩
      (by decide) (by decide) prog _ st h]
    decide
  · rw [const_object_immutable globals "MQTT_KEEPALIVE_INTERVAL" ⟨constInt, "MQTT_KEEPALIVE_INTERVAL", Value.int MQTT_KEEPALIVE_INTERVAL⟩
      (by decide) (by decide) prog _ st h]
    decide

/-- The empty program is accepted, so `scalar_fields_immutable` applies to it. -/
theorem scalar_fields_immutable_witness :
    run globals (initStore globals) [] = some (initStore globals) ∧
    read (initStore globals) "MQTT_PORT" = some (Value.int MQTT_PORT) :=
  ⟨rfl, (scalar_fields_immutable [] (initStore globals) rfl).1⟩

/-! ## The claims -/

/-- C1: the non-text defaults of the MQTT template are exactly `MQTT_QOS = 1`,
`MQTT_RETAIN = false`, `MQTT_PORT = 1883`, `MQTT_RECONNECT_DELAY = 5000` and
`MQTT_KEEPALIVE_INTERVAL = 60`; these five are all the non-text definitions of the
header. -/
theorem mqtt_nontext_defaults :
    MQTT_QOS = 1 ∧ MQTT_RETAIN = false ∧ MQTT_PORT = 1883 ∧
    MQTT_RECONNECT_DELAY = 5000 ∧ MQTT_KEEPALIVE_INTERVAL = 60 ∧
    defaults (nonText mqtt_config_template) =
      [ ("MQTT_PORT", Value.int 1883),
        ("MQTT_QOS", Value.int 1),
        ("MQTT_RETAIN", Value.bool false),
        ("MQTT_RECONNECT_DELAY", Value.int 5000),
        ("MQTT_KEEPALIVE_INTERVAL", Value.int 60) ] := by
  decide

/-- C2: the WiFi template ships placeholder credentials only: `WIFI_SSID` is
"YourWiFiNetwork", `WIFI_PASSWORD` is "YourWiFiPassword", and the header defines
nothing else. -/
theorem wifi_placeholder_credentials :
    WIFI_SSID = "YourWiFiNetwork" ∧ WIFI_PASSWORD = "YourWiFiPassword" ∧
    defaults wifi_config_template =
      [ ("WIFI_SSID", Value.str "YourWiFiNetwork"),
        ("WIFI_PASSWORD", Value.str "YourWiFiPassword") ] := by
  decide

/-- C3: `MQTT_USERNAME` and `MQTT_PASSWORD` both default to the empty string, of
length 0, and that pair of values is the one the header documents as anonymous
access. -/
theorem mqtt_credentials_default_anonymous :
    MQTT_USERNAME = "" ∧ MQTT_PASSWORD = "" ∧
    strlen MQTT_USERNAME = 0 ∧ strlen MQTT_PASSWORD = 0 ∧
    MQTT_USERNAME.length = 0 ∧ MQTT_PASSWORD.length = 0 ∧
    lookupInit mqtt_config_template "MQTT_USERNAME" = some (Value.str "") ∧
    lookupInit mqtt_config_template "MQTT_PASSWORD" = some (Value.str "") ∧
    anonymousAccess MQTT_USERNAME MQTT_PASSWORD = true := by
  decide

/-- C4: the two headers declare exactly the fields of the data model, each with the
stated semantic type and no others: WiFi has the two text fields ssid and password;
MQTT has ten fields, of which broker, clientId, username, password and topicPrefix are
text, port, qos, reconnectDelayMs and keepAliveSeconds are integers, and retain is a
boolean.  No identifier is defined twice. -/
theorem headers_declare_exactly_the_data_model :
    schemaOf wifi_config_template = expected specWiFiConfig ∧
    schemaOf mqtt_config_template = expected specMqttConfig ∧
    wifi_config_template.length = 2 ∧
    countOf wifi_config_template SemType.text = 2 ∧
    mqtt_config_template.length = 10 ∧
    countOf mqtt_config_template SemType.text = 5 ∧
    countOf mqtt_config_template SemType.integer = 4 ∧
    countOf mqtt_config_template SemType.boolean = 1 ∧
    (names globals).Nodup := by
  decide

/-- C5 (evaluation of the headers where the claim fails): a program that includes the
headers and executes `MQTT_BROKER = "attacker.example.org";` is accepted, and afterwards
`MQTT_BROKER` no longer reads as its compiled-in default; the same holds for each of the
seven identifiers declared `const char *`, while for the five declared `const int` or
`const bool` the assignment of another value of their kind is rejected.  So it is not
true that every accepted program leaves all twelve fields at their defaults. -/
theorem text_pointers_are_reassignable :
    (∃ st : Store,
      run globals (initStore globals)
        [⟨"MQTT_BROKER", Value.str "attacker.example.org"⟩] = some st ∧
      read st "MQTT_BROKER" = some (Value.str "attacker.example.org") ∧
      read st "MQTT_BROKER" ≠ lookupInit globals "MQTT_BROKER") ∧
    names (globals.filter (reassignable globals)) =
      [ "WIFI_SSID", "WIFI_PASSWORD", "MQTT_BROKER", "MQTT_CLIENT_ID",
        "MQTT_USERNAME", "MQTT_PASSWORD", "MQTT_TOPIC_PREFIX" ] ∧
    names (globals.filter (fun d => !reassignable globals d)) =
      [ "MQTT_PORT", "MQTT_QOS", "MQTT_RETAIN", "MQTT_RECONNECT_DELAY",
        "MQTT_KEEPALIVE_INTERVAL" ] ∧
    ¬ (∀ (prog : List Assign) (st : Store) (d : Decl), d ∈ globals →
        run globals (initStore globals) prog = some st →
        read st d.name = some d.init) := by
  refine ⟨⟨write (initStore globals) "MQTT_BROKER" (Value.str "attacker.example.org"),
    by decide, by decide, by decide⟩, by decide, by decide, ?_⟩
  intro hall
  have h := hall [⟨"MQTT_BROKER", Value.str "attacker.example.org"⟩]
    (write (initStore globals) "MQTT_BROKER" (Value.str "attacker.example.org"))
    ⟨constCharPtr, "MQTT_BROKER", Value.str MQTT_BROKER⟩ (by decide) (by decide)
  revert h
  decide

/-- C6: the shipped `MQTT_QOS` is one of the quality-of-service levels 0, 1, 2. -/
theorem mqtt_qos_is_valid_level :
    MQTT_QOS ∈ validQos ∧ (MQTT_QOS = 0 ∨ MQTT_QOS = 1 ∨ MQTT_QOS = 2) ∧
    lookupInit mqtt_config_template "MQTT_QOS" = some (Value.int MQTT_QOS) := by
  decide

/-- C7: appending "/data" to `MQTT_TOPIC_PREFIX` yields exactly "esp32/device/data" and
appending "/commands" yields exactly "esp32/device/commands"; the shipped value itself
does not end in a slash. -/
theorem topic_convention_holds :
    subTopic MQTT_TOPIC_PREFIX "/data" = "esp32/device/data" ∧
    subTopic MQTT_TOPIC_PREFIX "/commands" = "esp32/device/commands" ∧
    MQTT_TOPIC_PREFIX ++ "/data" = "esp32/device/data" ∧
    MQTT_TOPIC_PREFIX ++ "/commands" = "esp32/device/commands" ∧
    MQTT_TOPIC_PREFIX.toList.getLast? ≠ some '/' := by
  decide

/-- C8: the shipped numeric connection settings lie in the ranges the protocols carry:
`1 ≤ MQTT_PORT ≤ 65535`, `0 < MQTT_KEEPALIVE_INTERVAL ≤ 65535`,
`MQTT_RECONNECT_DELAY > 0`, and all three are at most 32767. -/
theorem numeric_settings_in_range :
    (1 ≤ MQTT_PORT ∧ MQTT_PORT ≤ 65535) ∧
    (0 < MQTT_KEEPALIVE_INTERVAL ∧ MQTT_KEEPALIVE_INTERVAL ≤ 65535) ∧
    MQTT_RECONNECT_DELAY > 0 ∧
    MQTT_PORT ≤ 32767 ∧ MQTT_KEEPALIVE_INTERVAL ≤ 32767 ∧
    MQTT_RECONNECT_DELAY ≤ 32767 := by
  decide

/-- C9: the shipped identifying strings are well-formed for MQTT: `MQTT_CLIENT_ID` is
non-empty and at most 23 bytes long, `MQTT_BROKER` is non-empty, and
`MQTT_TOPIC_PREFIX` is non-empty, contains neither '+' nor '#', and neither starts nor
ends with '/'. -/
theorem identifying_strings_well_formed :
    (0 < strlen MQTT_CLIENT_ID ∧ strlen MQTT_CLIENT_ID ≤ 23) ∧
    0 < strlen MQTT_BROKER ∧
    0 < strlen MQTT_TOPIC_PREFIX ∧
    '+' ∉ MQTT_TOPIC_PREFIX.toList ∧
    '#' ∉ MQTT_TOPIC_PREFIX.toList ∧
    MQTT_TOPIC_PREFIX.toList.head? ≠ some '/' ∧
    MQTT_TOPIC_PREFIX.toList.getLast? ≠ some '/' := by
  decide

/-- C10: the shipped WiFi placeholders satisfy the 802.11/WPA2 length limits:
`WIFI_SSID` is non-empty and at most 32 bytes, and `WIFI_PASSWORD` is between 8 and 63
bytes long. -/
theorem wifi_placeholders_within_length_limits :
    (0 < strlen WIFI_SSID ∧ strlen WIFI_SSID ≤ 32) ∧
    (8 ≤ strlen WIFI_PASSWORD ∧ strlen WIFI_PASSWORD ≤ 63) := by
  decide

end Esp32WifiMqtt
